import Mathlib

/-
Verification of the RAID-4 storage simulator (controller.c / disk_sim.c).

The development shallowly embeds the two source files:

* `disk_sim.c`: a disk worker owns a byte array of `disk_size` bytes and a
  command loop serving READ / WRITE / EXIT commands (`start_disk`), writing a
  checkpoint file on EXIT (`checkpoint_disk`).
* `controller.c`: the controller maps a global block number to a
  (disk, local index) pair, forwards commands over per-disk channels
  (`read_block_from_disk` / `write_block_to_disk`), and maintains parity
  (`write_block`, `read_block`).  Descriptor bookkeeping of `init_disk`,
  `restart_disk` and `init_all_controllers` is embedded as explicit endpoint
  sets.

Bytes are modelled as `Nat` (only XOR matters), a disk as a `List Nat`, and
the array state as the list of the `num_disks + 1` disks' contents (index
`num_disks` is the parity disk).  Channel traffic is recorded as an explicit
trace of send/receive events so that statements about "no I/O happened" and
about the request/response discipline can be made.
-/

/-- Array geometry: the configuration constants `num_disks` (number of data
disks, the parity disk is extra), `block_size` and `disk_size` from the
missing `raid.h`, supplied as parameters everywhere. -/
structure Geometry where
  num_disks : Nat
  block_size : Nat
  disk_size : Nat
deriving DecidableEq

/-- Contents of all `num_disks + 1` disks; entry `num_disks` is the parity
disk's byte array. -/
abbrev RaidState := List (List Nat)

/-- Content of the `i`-th disk (empty list when out of range). -/
def nth (st : RaidState) (i : Nat) : List Nat :=
  st.getD i []

/-- Worker-side read of one block: `disk_data + block_num * block_size`,
`block_size` bytes (disk_sim.c, CMD_READ case). -/
def diskRead (g : Geometry) (d : List Nat) (block_num : Nat) : List Nat :=
  (d.drop (block_num * g.block_size)).take g.block_size

/-- Worker-side write of one block: `memcpy(disk_data + block_num * block_size,
payload, block_size)` (disk_sim.c, CMD_WRITE case). -/
def diskWrite (g : Geometry) (d : List Nat) (block_num : Nat) (p : List Nat) : List Nat :=
  d.take (block_num * g.block_size) ++ p ++ d.drop (block_num * g.block_size + g.block_size)

/-- Byte-wise XOR of two buffers (`parity_data[j] ^= temp_data[j]`). -/
def xorBytes (a b : List Nat) : List Nat :=
  List.zipWith Nat.xor a b

/-- Wire commands of the protocol (tag plus its payload fields). -/
inductive DiskCmd where
  | read (block_num : Nat)
  | write (block_num : Nat) (payload : List Nat)
  | exit
deriving DecidableEq

/-- One channel event: the controller sending a command to a disk worker, or
receiving a reply buffer from one. -/
inductive WireEvent where
  | send (disk : Nat) (cmd : DiskCmd)
  | recv (disk : Nat) (payload : List Nat)
deriving DecidableEq

/-- Embedding of `read_block_from_disk` (controller.c:175-216): pick the disk
(parity disk when `parity_flag`, else `block_num % num_disks`), divide
`block_num` by `num_disks` to get the local index, send a READ command and
receive `block_size` bytes.  The received bytes are the addressed worker's
current block content. -/
def read_block_from_disk (g : Geometry) (st : RaidState) (block_num : Nat)
    (parity_flag : Bool) : List Nat × List WireEvent :=
  let disk_num := if parity_flag then g.num_disks else block_num % g.num_disks
  let bytes := diskRead g (nth st disk_num) (block_num / g.num_disks)
  (bytes, [WireEvent.send disk_num (DiskCmd.read (block_num / g.num_disks)),
           WireEvent.recv disk_num bytes])

/-- Embedding of `write_block_to_disk` (controller.c:226-267): pick the disk
as in `read_block_from_disk`, send a WRITE command with the local index
`block_num / num_disks` and the payload; the worker stores the payload at
that local index.  No reply is sent. -/
def write_block_to_disk (g : Geometry) (st : RaidState) (block_num : Nat)
    (data : List Nat) (parity_flag : Bool) : RaidState × List WireEvent :=
  let disk_num := if parity_flag then g.num_disks else block_num % g.num_disks
  (st.set disk_num (diskWrite g (nth st disk_num) (block_num / g.num_disks) data),
   [WireEvent.send disk_num (DiskCmd.write (block_num / g.num_disks) data)])

/-- The test `disk_num == num_disks` of `write_block` (controller.c:293-296)
that decides whether the target of the write is the parity disk. -/
def writeParityFlag (g : Geometry) (block_num : Nat) : Bool :=
  block_num % g.num_disks == g.num_disks

/-- The parity read loop of `write_block` (controller.c:314-334): for each
disk index `i` in order, skipping `i = skip` (the disk just written), read
that disk via `read_block_from_disk i 0` and XOR the bytes into the
accumulator. -/
def parityLoop (g : Geometry) (st : RaidState) (skip : Nat) (acc : List Nat) :
    List Nat → List Nat × List WireEvent
  | [] => (acc, [])
  | i :: rest =>
    if i = skip then parityLoop g st skip acc rest
    else
      let r := read_block_from_disk g st i false
      let tail := parityLoop g st skip (xorBytes acc r.1) rest
      (tail.1, r.2 ++ tail.2)

/-- The parity update phase of `write_block` (controller.c:305-348): fold the
other disks' blocks into a zeroed buffer via `parityLoop`, XOR in the new
data, and write the result with `write_block_to_disk stripe parity 1`. -/
def updateParity (g : Geometry) (st : RaidState) (disk_num stripe : Nat)
    (data : List Nat) : RaidState × List WireEvent :=
  let rp := parityLoop g st disk_num (List.replicate g.block_size 0) (List.range g.num_disks)
  let r2 := write_block_to_disk g st stripe (xorBytes rp.1 data) true
  (r2.1, rp.2 ++ r2.2)

/-- Embedding of `write_block` (controller.c:276-350).  Returns the C return
value (`0` success, `-1` invalid block number), the new array state, and the
trace of channel events.  An invalid `block_num` is rejected before any
channel event.  Note the source passes the global `block_num` to the data
write, but passes `stripe = block_num / num_disks` to the parity write and
the plain disk index `i` to the parity-loop reads; the callees divide by
`num_disks` again. -/
def write_block (g : Geometry) (st : RaidState) (block_num : Int)
    (data : List Nat) : Int × RaidState × List WireEvent :=
  if block_num < 0 ∨ ((g.disk_size / g.block_size : Nat) : Int) ≤ block_num then
    (-1, st, [])
  else
    let bn := block_num.toNat
    let r1 := write_block_to_disk g st bn data (writeParityFlag g bn)
    if writeParityFlag g bn then (0, r1.1, r1.2)
    else
      let r2 := updateParity g r1.1 (bn % g.num_disks) (bn / g.num_disks) data
      (0, r2.1, r1.2 ++ r2.2)

/-- Embedding of `read_block` (controller.c:359-377): reject an invalid block
number (returning NULL, modelled as `none`) before any channel event,
otherwise forward to `read_block_from_disk` with `parity_flag = 0`. -/
def read_block (g : Geometry) (st : RaidState) (block_num : Int) :
    Option (List Nat) × List WireEvent :=
  if block_num < 0 ∨ ((g.disk_size / g.block_size : Nat) : Int) ≤ block_num then
    (none, [])
  else
    let r := read_block_from_disk g st block_num.toNat false
    (some r.1, r.2)

/-- Trace of `checkpoint_and_wait` (controller.c:383-396): an EXIT command is
sent to every one of the `num_disks + 1` workers; no replies are read. -/
def checkpoint_and_wait_trace (g : Geometry) : List WireEvent :=
  (List.range (g.num_disks + 1)).map (fun i => WireEvent.send i DiskCmd.exit)

/-- A freshly initialized array: every worker `calloc`s its `disk_size`-byte
array, so all `num_disks + 1` disks are zero-filled (disk_sim.c:38). -/
def initState (g : Geometry) : RaidState :=
  List.replicate (g.num_disks + 1) (List.replicate g.disk_size 0)

/-- Commands as decoded by the worker's command loop: the known tags with
their operands, or an unknown tag hitting the `default` case. -/
inductive WorkerCmd where
  | read (block_num : Nat)
  | write (block_num : Nat) (payload : List Nat)
  | exit
  | unknown (tag : Nat)
deriving DecidableEq

/-- Observable outcome of a worker process run on a finite command stream:
its exit status, the checkpoint file it wrote (name and content), the reply
buffers it sent to the controller, and its in-memory array at the end. -/
structure WorkerOutcome where
  status : Nat
  checkpoint : Option (String × List Nat)
  replies : List (List Nat)
  finalData : List Nat
deriving DecidableEq

/-- Checkpoint file name built by `checkpoint_disk` (disk_sim.c:144):
`snprintf(disk_name, ..., "disk_%d.dat", id)`. -/
def checkpointName (id : Nat) : String :=
  "disk_" ++ toString id ++ ".dat"

/-- Embedding of the command loop of `start_disk` (disk_sim.c:48-121) on a
finite stream of commands.  CMD_READ sends the addressed block back; CMD_WRITE
stores the payload; CMD_EXIT checkpoints the array and calls `exit(0)`; an
unknown tag sets `status = 1` and — since the C `break` only leaves the
`switch` — continues the loop.  When the stream ends (reading a command
fails), `status` is set to `1`, the loop breaks, and the worker exits with
`exit(status)` without writing its own checkpoint (the `checkpoint_and_wait`
call on that path broadcasts EXIT to other workers but never calls
`checkpoint_disk` for this one). -/
def runWorker (g : Geometry) (id : Nat) (data : List Nat) (status : Nat)
    (replies : List (List Nat)) : List WorkerCmd → WorkerOutcome
  | [] => ⟨1, none, replies, data⟩
  | WorkerCmd.read bn :: rest =>
      runWorker g id data status (replies ++ [diskRead g data bn]) rest
  | WorkerCmd.write bn p :: rest =>
      runWorker g id (diskWrite g data bn p) status replies rest
  | WorkerCmd.exit :: _ =>
      ⟨0, some (checkpointName id, data), replies, data⟩
  | WorkerCmd.unknown _ :: rest =>
      runWorker g id data 1 replies rest

/-- Embedding of `start_disk` (disk_sim.c:34-130): the worker starts from a
zero-filled `disk_size`-byte array and runs its command loop. -/
def start_disk (g : Geometry) (id : Nat) (cmds : List WorkerCmd) : WorkerOutcome :=
  runWorker g id (List.replicate g.disk_size 0) 0 [] cmds

/-- Which side of a pipe an endpoint is: `fd[0]` is the read end, `fd[1]` the
write end. -/
inductive PipeEnd where
  | readEnd
  | writeEnd
deriving DecidableEq

/-- The two pipes of a slot: `to_disk` (controller to worker) and `from_disk`
(worker to controller). -/
inductive ChanKind where
  | toDisk
  | fromDisk
deriving DecidableEq

/-- One pipe endpoint, identified by slot, pipe and side, mirroring the
`controllers[slot].to_disk / from_disk` descriptor pairs. -/
structure Endpoint where
  slot : Nat
  chan : ChanKind
  side : PipeEnd
deriving DecidableEq

/-- The two endpoints the controller keeps for a slot after spawning it:
`to_disk[1]` and `from_disk[0]`. -/
def controllerEndpoints (i : Nat) : List Endpoint :=
  [⟨i, ChanKind.toDisk, PipeEnd.writeEnd⟩, ⟨i, ChanKind.fromDisk, PipeEnd.readEnd⟩]

/-- The two endpoints a worker needs: `to_disk[0]` (read commands) and
`from_disk[1]` (send replies); these are the arguments passed to
`start_disk`. -/
def workerEndpoints (i : Nat) : List Endpoint :=
  [⟨i, ChanKind.toDisk, PipeEnd.readEnd⟩, ⟨i, ChanKind.fromDisk, PipeEnd.writeEnd⟩]

/-- Endpoints open in the child forked by `restart_disk` at the moment of the
fork: for every other slot the controller's retained pair, and for slot `num`
all four ends of the two pipes just created (controller.c:97-107). -/
def childInherited (total num : Nat) : List Endpoint :=
  (List.range total).flatMap (fun i =>
    if i = num then controllerEndpoints i ++ workerEndpoints i
    else controllerEndpoints i)

/-- The endpoints closed by the child's loop in `restart_disk`
(controller.c:110-123): for `i != num` it closes `to_disk[1]` and
`from_disk[0]`; for `i == num` it closes `to_disk[0]`, `from_disk[1]`,
`from_disk[0]` and `to_disk[1]` — all four ends of its own new pipes. -/
def restartChildCloses (total num : Nat) : List Endpoint :=
  (List.range total).flatMap (fun i =>
    if i ≠ num then
      [⟨i, ChanKind.toDisk, PipeEnd.writeEnd⟩, ⟨i, ChanKind.fromDisk, PipeEnd.readEnd⟩]
    else
      [⟨i, ChanKind.toDisk, PipeEnd.readEnd⟩, ⟨i, ChanKind.fromDisk, PipeEnd.writeEnd⟩,
       ⟨i, ChanKind.fromDisk, PipeEnd.readEnd⟩, ⟨i, ChanKind.toDisk, PipeEnd.writeEnd⟩])

/-- Endpoints the restarted worker still holds open when it enters
`start_disk`, i.e. after executing the close loop of `restart_disk`. -/
def childOpenAfterRestart (total num : Nat) : List Endpoint :=
  (childInherited total num).filter
    (fun e => decide (e ∉ restartChildCloses total num))

/-- Orchestrator state observed by claim C7: which slots have a live worker
process, which controller-side endpoints are open, and whether the
`controllers` array is still allocated. -/
structure OrchState where
  workers : List Nat
  endpoints : List Endpoint
  arrayAllocated : Bool
deriving DecidableEq

/-- Effect of a successful `init_disk i` on the controller process
(controller.c:49-82): a worker for slot `i` is spawned and the controller
keeps `to_disk[1]` and `from_disk[0]` of the new pipes. -/
def spawnSlot (st : OrchState) (i : Nat) : OrchState :=
  { st with workers := st.workers ++ [i],
            endpoints := st.endpoints ++ controllerEndpoints i }

/-- The loop of `init_all_controllers` (controller.c:157-163), with an oracle
`failAt` naming the slot whose `init_disk` fails (pipe or fork error before
anything for that slot is created).  On failure the source frees the
`controllers` array and returns `-1`, touching nothing else. -/
def initGo (failAt : Option Nat) : List Nat → OrchState → Int × OrchState
  | [], st => (0, st)
  | i :: rest, st =>
    if failAt = some i then (-1, { st with arrayAllocated := false })
    else initGo failAt rest (spawnSlot st i)

/-- Embedding of `init_all_controllers total_disks` (controller.c:146-165):
allocate the array, then spawn slots `0 .. total_disks - 1` in order,
aborting at the slot named by the failure oracle. -/
def init_all_controllers (total : Nat) (failAt : Option Nat) : Int × OrchState :=
  initGo failAt (List.range total) ⟨[], [], true⟩

/-- Parity expression of the specification, written from the spec's words:
the byte-wise XOR of the blocks at local index `k` of all `num_disks` data
disks (folded left from a zero block, in disk order). -/
def stripeXor (g : Geometry) (st : RaidState) (k : Nat) : List Nat :=
  (List.range g.num_disks).foldl
    (fun acc i => xorBytes acc (diskRead g (nth st i) k))
    (List.replicate g.block_size 0)

/-- The claim-C8 discipline, written from the spec's words: every command the
controller sends is answered (a reply received) before the next command is
sent; a trailing unanswered send is allowed since no next message follows. -/
def allAnswered : List WireEvent → Bool
  | [] => true
  | WireEvent.send _ _ :: WireEvent.recv _ _ :: rest => allAnswered rest
  | [WireEvent.send _ _] => true
  | WireEvent.send _ _ :: WireEvent.send _ _ :: _ => false
  | WireEvent.recv _ _ :: rest => allAnswered rest

/-- The weaker discipline the code actually follows: every READ command is
answered by a reply received before the controller sends anything else;
WRITE and EXIT commands expect no answer. -/
def readsAnswered : List WireEvent → Bool
  | [] => true
  | WireEvent.send _ cmd :: rest =>
    match cmd with
    | DiskCmd.read _ =>
      match rest with
      | WireEvent.recv _ _ :: rest2 => readsAnswered rest2
      | _ => false
    | _ => readsAnswered rest
  | WireEvent.recv _ _ :: rest => readsAnswered rest

/-- Boolean well-formedness of a worker command: a WRITE carries exactly
`block_size` bytes and addresses a block inside the `disk_size`-byte array;
other commands are unconstrained. -/
def wfCmd (g : Geometry) : WorkerCmd → Bool
  | WorkerCmd.write bn p =>
      decide (p.length = g.block_size ∧ (bn + 1) * g.block_size ≤ g.disk_size)
  | _ => true

/-- The concrete geometry of the spec's scenario: 3 data disks, 4-byte
blocks, 16 bytes per disk. -/
def g3 : Geometry := ⟨3, 4, 16⟩

/-- Payload `"AAAA"`. -/
def strA : List Nat := [65, 65, 65, 65]

/-- Payload `"BBBB"`. -/
def strB : List Nat := [66, 66, 66, 66]

/-- Payload `"CCCC"`. -/
def strC : List Nat := [67, 67, 67, 67]

/-- Payload `"DDDD"`. -/
def strD : List Nat := [68, 68, 68, 68]

/-- The state after the spec scenario's three writes (blocks 0, 1, 2 with
`"AAAA"`, `"BBBB"`, `"CCCC"`) from a fresh array. -/
def scenarioState : RaidState :=
  (write_block g3 ((write_block g3 ((write_block g3 (initState g3) 0 strA).2.1) 1 strB).2.1) 2 strC).2.1

lemma nth_set_ne (st : RaidState) (i j : Nat) (a : List Nat) (h : i ≠ j) :
    nth (st.set i a) j = nth st j := by
  unfold nth
  simp [List.getD_eq_getElem?_getD, List.getElem?_set_ne h]

lemma nth_set_self (st : RaidState) (i : Nat) (a : List Nat) (h : i < st.length) :
    nth (st.set i a) i = a := by
  unfold nth
  simp [List.getD_eq_getElem?_getD, List.getElem?_set_self, h]

lemma nth_length (st : RaidState) (i : Nat) (S : Nat) (h : i < st.length)
    (hall : ∀ d ∈ st, d.length = S) : (nth st i).length = S := by
  unfold nth
  rw [List.getD_eq_getElem st [] h]
  exact hall _ (List.getElem_mem h)

lemma diskRead_diskWrite_self (g : Geometry) (d : List Nat) (k : Nat) (p : List Nat)
    (hk : k * g.block_size + g.block_size ≤ d.length) (hp : p.length = g.block_size) :
    diskRead g (diskWrite g d k p) k = p := by
  unfold diskRead diskWrite
  have h1 : (d.take (k * g.block_size)).length = k * g.block_size := by
    rw [List.length_take]; omega
  rw [List.append_assoc, List.drop_left' h1, List.take_left' hp]

lemma diskWrite_length (g : Geometry) (d : List Nat) (k : Nat) (p : List Nat)
    (hk : (k + 1) * g.block_size ≤ d.length) (hp : p.length = g.block_size) :
    (diskWrite g d k p).length = d.length := by
  unfold diskWrite
  rw [Nat.succ_mul] at hk
  simp only [List.length_append, List.length_take, List.length_drop]
  omega

/-- Shape of `write_block` on a valid block number: the validation passes,
`parity_flag` stays `0`, the data disk is written, and the parity-update
phase runs. -/
lemma write_block_valid (g : Geometry) (st : RaidState) (i : Int) (data : List Nat)
    (hD : 0 < g.num_disks) (hi0 : 0 ≤ i)
    (hi1 : i < ((g.disk_size / g.block_size : Nat) : Int)) :
    write_block g st i data =
      (0,
       (updateParity g (write_block_to_disk g st i.toNat data false).1
          (i.toNat % g.num_disks) (i.toNat / g.num_disks) data).1,
       (write_block_to_disk g st i.toNat data false).2 ++
         (updateParity g (write_block_to_disk g st i.toNat data false).1
            (i.toNat % g.num_disks) (i.toNat / g.num_disks) data).2) := by
  have hlt : i.toNat % g.num_disks < g.num_disks := Nat.mod_lt _ hD
  have hpf : writeParityFlag g i.toNat = false := by
    unfold writeParityFlag
    simp only [beq_eq_false_iff_ne, ne_eq]
    omega
  have hnot : ¬(i < 0 ∨ ((g.disk_size / g.block_size : Nat) : Int) ≤ i) := by omega
  simp only [write_block, if_neg hnot, hpf, Bool.false_eq_true, if_false]

/-- Shape of `read_block` on a valid block number: the validation passes and
the call forwards to `read_block_from_disk` with `parity_flag = 0`. -/
lemma read_block_valid (g : Geometry) (st : RaidState) (i : Int) (hi0 : 0 ≤ i)
    (hi1 : i < ((g.disk_size / g.block_size : Nat) : Int)) :
    read_block g st i =
      (some (read_block_from_disk g st i.toNat false).1,
       (read_block_from_disk g st i.toNat false).2) := by
  have hnot : ¬(i < 0 ∨ ((g.disk_size / g.block_size : Nat) : Int) ≤ i) := by omega
  simp only [read_block, if_neg hnot]

lemma getLast_append_singleton {α : Type} (l1 l2 : List α) (e : α) :
    (l1 ++ (l2 ++ [e])).getLast? = some e := by
  rw [← List.append_assoc]
  exact List.getLast?_concat _

lemma runWorker_checkpoint (g : Geometry) (id : Nat) (cmds : List WorkerCmd) :
    ∀ (data : List Nat) (status : Nat) (replies : List (List Nat)),
      data.length = g.disk_size →
      (∀ c ∈ cmds, wfCmd g c = true) →
      ((runWorker g id data status replies cmds).checkpoint.isSome ↔ WorkerCmd.exit ∈ cmds) ∧
      (WorkerCmd.exit ∈ cmds →
        (runWorker g id data status replies cmds).status = 0 ∧
        (runWorker g id data status replies cmds).checkpoint =
          some (checkpointName id, (runWorker g id data status replies cmds).finalData) ∧
        (runWorker g id data status replies cmds).finalData.length = g.disk_size) ∧
      (WorkerCmd.exit ∉ cmds →
        (runWorker g id data status replies cmds).status = 1 ∧
        (runWorker g id data status replies cmds).checkpoint = none) := by
  induction cmds with
  | nil =>
    intro data status replies hdata hwf
    simp [runWorker]
  | cons c rest ih =>
    intro data status replies hdata hwf
    cases c with
    | read bn =>
      have := ih data status (replies ++ [diskRead g data bn]) hdata
        (fun c hc => hwf c (List.mem_cons_of_mem _ hc))
      simp only [runWorker, List.mem_cons, reduceCtorEq, false_or]
      exact this
    | write bn p =>
      have hw : wfCmd g (WorkerCmd.write bn p) = true := hwf _ (List.mem_cons_self _ _)
      have hw2 : p.length = g.block_size ∧ (bn + 1) * g.block_size ≤ g.disk_size :=
        of_decide_eq_true hw
      have hlen : (diskWrite g data bn p).length = g.disk_size := by
        rw [diskWrite_length g data bn p (by omega) hw2.1]
        exact hdata
      have := ih (diskWrite g data bn p) status replies hlen
        (fun c hc => hwf c (List.mem_cons_of_mem _ hc))
      simp only [runWorker, List.mem_cons, reduceCtorEq, false_or]
      exact this
    | exit =>
      refine ⟨by simp [runWorker], fun _ => ⟨rfl, rfl, hdata⟩, fun h => absurd (by simp) h⟩
    | unknown t =>
      have := ih data 1 replies hdata
        (fun c hc => hwf c (List.mem_cons_of_mem _ hc))
      simp only [runWorker, List.mem_cons, reduceCtorEq, false_or]
      exact this

lemma readsAnswered_send_write (d l : Nat) (p : List Nat) (rest : List WireEvent) :
    readsAnswered (WireEvent.send d (DiskCmd.write l p) :: rest) = readsAnswered rest := rfl

lemma readsAnswered_send_exit (d : Nat) (rest : List WireEvent) :
    readsAnswered (WireEvent.send d DiskCmd.exit :: rest) = readsAnswered rest := rfl

lemma readsAnswered_read_recv (d1 l d2 : Nat) (b : List Nat) (rest : List WireEvent) :
    readsAnswered (WireEvent.send d1 (DiskCmd.read l) :: WireEvent.recv d2 b :: rest) =
      readsAnswered rest := rfl

lemma parityLoop_readsAnswered (g : Geometry) (st : RaidState) (skip : Nat)
    (l : List Nat) :
    ∀ (acc : List Nat) (rest : List WireEvent),
      readsAnswered ((parityLoop g st skip acc l).2 ++ rest) = readsAnswered rest := by
  induction l with
  | nil =>
    intro acc rest
    simp [parityLoop]
  | cons i tl ih =>
    intro acc rest
    by_cases h : i = skip
    · simp only [parityLoop, if_pos h]
      exact ih acc rest
    · simp only [parityLoop, if_neg h, read_block_from_disk, List.cons_append,
        List.nil_append, List.append_assoc]
      rw [readsAnswered_read_recv]
      exact ih _ rest

lemma readsAnswered_exit_broadcast (l : List Nat) :
    readsAnswered (l.map (fun i => WireEvent.send i DiskCmd.exit)) = true := by
  induction l with
  | nil => rfl
  | cons i tl ih => rw [List.map_cons, readsAnswered_send_exit]; exact ih

lemma foldl_spawnSlot (l : List Nat) : ∀ (st : OrchState),
    l.foldl spawnSlot st =
      ⟨st.workers ++ l, st.endpoints ++ l.flatMap controllerEndpoints, st.arrayAllocated⟩ := by
  induction l with
  | nil => intro st; simp
  | cons i tl ih =>
    intro st
    rw [List.foldl_cons, ih (spawnSlot st i)]
    simp [spawnSlot, List.flatMap_cons]

lemma initGo_fail (k : Nat) (l1 : List Nat) : ∀ (l2 : List Nat) (st : OrchState), k ∉ l1 →
    initGo (some k) (l1 ++ k :: l2) st =
      (-1, { l1.foldl spawnSlot st with arrayAllocated := false }) := by
  induction l1 with
  | nil =>
    intro l2 st _
    simp [initGo]
  | cons i tl ih =>
    intro l2 st hmem
    have hne : ¬((some k : Option Nat) = some i) := by
      simp only [List.mem_cons, not_or] at hmem
      simp only [Option.some.injEq]
      exact hmem.1
    rw [List.cons_append]
    simp only [initGo, if_neg hne]
    rw [ih l2 (spawnSlot st i) (by simp only [List.mem_cons, not_or] at hmem; exact hmem.2)]
    rfl

/-- C1: the parity invariant does NOT survive every successful sequence of
`write_block` calls.  With `D = 3`, `B = 4`, `S = 16` and a fresh array, the
single call `write_block 3 "DDDD"` succeeds (returns 0), yet afterwards the
parity disk's block at stripe 1 differs from the XOR of the three data
disks' blocks at stripe 1: the source's parity phase reads the other disks
at local index `i / num_disks = 0` instead of at the stripe, and writes the
parity disk at local index `stripe / num_disks = 0` instead of at `stripe`. -/
theorem C1_parity_invariant_violated :
    (write_block g3 (initState g3) 3 strD).1 = 0 ∧
    diskRead g3 (nth (write_block g3 (initState g3) 3 strD).2.1 g3.num_disks) 1 ≠
      stripeXor g3 (write_block g3 (initState g3) 3 strD).2.1 1 := by
  decide

/-- C2: with `D = 3`, `B = 4`, `S = 16`, writing global blocks 0, 1, 2 with
payloads `"AAAA"`, `"BBBB"`, `"CCCC"` from a fresh array succeeds, leaves
the parity disk's stripe-0 block equal to the byte-wise XOR of the three
payloads, and `read_block 1` then returns `"BBBB"`. -/
theorem C2_concrete_scenario :
    (write_block g3 (initState g3) 0 strA).1 = 0 ∧
    (write_block g3 ((write_block g3 (initState g3) 0 strA).2.1) 1 strB).1 = 0 ∧
    (write_block g3 ((write_block g3 ((write_block g3 (initState g3) 0 strA).2.1) 1 strB).2.1)
      2 strC).1 = 0 ∧
    diskRead g3 (nth scenarioState g3.num_disks) 0 = xorBytes (xorBytes strA strB) strC ∧
    (read_block g3 scenarioState 1).1 = some strB := by
  decide

/-- C3: for every geometry with at least one data disk, every well-formed
array state, every valid global block index `i` and every `block_size`-byte
payload `X`, `write_block i X` succeeds and a subsequent `read_block i`
returns exactly `X`. -/
theorem C3_round_trip (g : Geometry) (st : RaidState) (i : Int) (X : List Nat)
    (hD : 0 < g.num_disks)
    (hlen : st.length = g.num_disks + 1)
    (hdisks : ∀ d ∈ st, d.length = g.disk_size)
    (hi0 : 0 ≤ i) (hi1 : i < ((g.disk_size / g.block_size : Nat) : Int))
    (hX : X.length = g.block_size) :
    (write_block g st i X).1 = 0 ∧
    (read_block g ((write_block g st i X).2.1) i).1 = some X := by
  rw [write_block_valid g st i X hD hi0 hi1]
  rw [read_block_valid g _ i hi0 hi1]
  refine ⟨rfl, ?_⟩
  have hbn : i.toNat < g.disk_size / g.block_size := by omega
  have hdn : i.toNat % g.num_disks < g.num_disks := Nat.mod_lt _ hD
  have hoff : i.toNat / g.num_disks * g.block_size + g.block_size ≤ g.disk_size := by
    have h1 : i.toNat / g.num_disks ≤ i.toNat := Nat.div_le_self _ _
    have h2 : (i.toNat / g.num_disks + 1) * g.block_size ≤
        (g.disk_size / g.block_size) * g.block_size :=
      Nat.mul_le_mul_right _ (by omega)
    have h3 : (g.disk_size / g.block_size) * g.block_size ≤ g.disk_size :=
      Nat.div_mul_le_self _ _
    calc i.toNat / g.num_disks * g.block_size + g.block_size
        = (i.toNat / g.num_disks + 1) * g.block_size := by rw [Nat.succ_mul]
      _ ≤ g.disk_size := le_trans h2 h3
  simp only [read_block_from_disk, updateParity, write_block_to_disk,
    if_true, if_false, Bool.false_eq_true, Bool.true_eq_false, ite_true, ite_false]
  rw [nth_set_ne _ _ _ _ (by omega)]
  rw [nth_set_self _ _ _ (by omega)]
  rw [diskRead_diskWrite_self g _ _ _
    (by rw [nth_length st _ g.disk_size (by omega) hdisks]; exact hoff) hX]

/-- Witness for C3 at `D = 3`, `B = 4`, `S = 16`, block 1, payload `"BBBB"`. -/
theorem C3_round_trip_witness :
    (write_block g3 (initState g3) 1 strB).1 = 0 ∧
    (read_block g3 ((write_block g3 (initState g3) 1 strB).2.1) 1).1 = some strB :=
  C3_round_trip g3 (initState g3) 1 strB (by decide) (by decide) (by decide)
    (by decide) (by decide) (by decide)

/-- C4: for every global block index that is negative or at least
`disk_size / block_size`, `write_block` returns `-1` and `read_block`
returns NULL (`none`), the array state is returned unchanged, and the trace
of channel events is empty — the request is rejected before any I/O. -/
theorem C4_invalid_address_rejected (g : Geometry) (st : RaidState) (i : Int)
    (data : List Nat)
    (h : i < 0 ∨ ((g.disk_size / g.block_size : Nat) : Int) ≤ i) :
    write_block g st i data = (-1, st, []) ∧ read_block g st i = (none, []) := by
  unfold write_block read_block
  rw [if_pos h, if_pos h]
  exact ⟨rfl, rfl⟩

/-- Witness for C4 at `D = 3`, `B = 4`, `S = 16` and the out-of-range global
index 4 (the valid range is `[0, 4)`). -/
theorem C4_invalid_address_rejected_witness :
    write_block g3 (initState g3) 4 strA = (-1, initState g3, []) ∧
    read_block g3 (initState g3) 4 = (none, []) :=
  C4_invalid_address_rejected g3 (initState g3) 4 strA (Or.inr (by decide))

/-- C5: a worker that receives an unknown command tag does NOT exit with
failure status: the `default` case of the switch sets `status = 1`, but its
`break` only leaves the switch, so the loop continues.  On the stream
[unknown tag 99, READ 0, EXIT] the worker goes on to answer the READ (one
reply is sent) and then exits through the EXIT case with SUCCESS status 0,
checkpoint written. -/
theorem C5_unknown_command_not_fatal :
    (start_disk g3 0 [WorkerCmd.unknown 99, WorkerCmd.read 0, WorkerCmd.exit]).status = 0 ∧
    (start_disk g3 0 [WorkerCmd.unknown 99, WorkerCmd.read 0, WorkerCmd.exit]).replies =
      [List.replicate 4 0] ∧
    (start_disk g3 0 [WorkerCmd.unknown 99, WorkerCmd.read 0, WorkerCmd.exit]).checkpoint.isSome =
      true := by
  decide

/-- C6: the child forked by `restart_disk` does NOT keep open the two
endpoints it needs.  With 4 slots (D = 3) restarting slot 1, after the
child's close loop no endpoint at all is left open: the `else` branch closes
all four ends of the slot's own pipes, including `to_disk`'s read end and
`from_disk`'s write end that `start_disk` is then called with. -/
theorem C6_restart_child_closes_needed_endpoints :
    childOpenAfterRestart 4 1 = [] ∧
    Endpoint.mk 1 ChanKind.toDisk PipeEnd.readEnd ∉ childOpenAfterRestart 4 1 ∧
    Endpoint.mk 1 ChanKind.fromDisk PipeEnd.writeEnd ∉ childOpenAfterRestart 4 1 := by
  decide

/-- C7 counterexample: `init_all_controllers` does not fail atomically.  With
4 slots and `init_disk` failing at slot 1, it returns `-1` but the worker
spawned for slot 0 is still running and the controller-side endpoints of
slot 0 are still open. -/
theorem C7_no_rollback_counterexample :
    (init_all_controllers 4 (some 1)).1 = -1 ∧
    (init_all_controllers 4 (some 1)).2.workers ≠ [] ∧
    (init_all_controllers 4 (some 1)).2.endpoints ≠ [] := by
  decide

/-- C7 amended: when spawning slot `k` fails, `init_all_controllers` returns
`-1` and frees the `controllers` array, but the workers of slots `0..k-1`
remain running and their controller-side channel endpoints remain open — no
rollback of previously spawned slots is performed. -/
theorem C7_partial_cleanup_on_failure (total k : Nat) (hk : k < total) :
    (init_all_controllers total (some k)).1 = -1 ∧
    (init_all_controllers total (some k)).2.arrayAllocated = false ∧
    (init_all_controllers total (some k)).2.workers = List.range k ∧
    (init_all_controllers total (some k)).2.endpoints =
      (List.range k).flatMap controllerEndpoints := by
  obtain ⟨m, rfl⟩ : ∃ m, total = (k + 1) + m := ⟨total - (k + 1), by omega⟩
  have hsplit : List.range ((k + 1) + m) =
      List.range k ++ (k :: (List.range m).map ((k + 1) + ·)) := by
    rw [List.range_add, List.range_succ, List.append_assoc]
    rfl
  unfold init_all_controllers
  rw [hsplit, initGo_fail k _ _ _ (by simp), foldl_spawnSlot]
  simp

/-- Witness for the amended C7 with 4 slots failing at slot 1. -/
theorem C7_partial_cleanup_on_failure_witness :
    (init_all_controllers 4 (some 1)).1 = -1 ∧
    (init_all_controllers 4 (some 1)).2.arrayAllocated = false ∧
    (init_all_controllers 4 (some 1)).2.workers = List.range 1 ∧
    (init_all_controllers 4 (some 1)).2.endpoints =
      (List.range 1).flatMap controllerEndpoints :=
  C7_partial_cleanup_on_failure 4 1 (by decide)

/-- C8 counterexample: the protocol is not strictly request/response.  In the
trace of the successful call `write_block 0 "AAAA"` the first sent command (a
WRITE) is followed by the next send with no reply received in between: WRITE
commands are never answered. -/
theorem C8_write_unanswered_counterexample :
    (write_block g3 (initState g3) 0 strA).1 = 0 ∧
    allAnswered (write_block g3 (initState g3) 0 strA).2.2 = false := by
  decide

/-- C8 amended: only READ commands are answered — in every trace produced by
`write_block`, `read_block` or the EXIT broadcast of `checkpoint_and_wait`,
each READ command's reply is received before the controller sends the next
message, while WRITE and EXIT commands are fire-and-forget and receive no
reply. -/
theorem C8_reads_answered (g : Geometry) (st : RaidState) (i : Int) (data : List Nat) :
    readsAnswered (write_block g st i data).2.2 = true ∧
    readsAnswered (read_block g st i).2 = true ∧
    readsAnswered (checkpoint_and_wait_trace g) = true := by
  refine ⟨?_, ?_, readsAnswered_exit_broadcast _⟩
  · simp only [write_block]
    split
    · rfl
    · split
      · simp only [write_block_to_disk]
        rw [readsAnswered_send_write]
        rfl
      · simp only [write_block_to_disk, updateParity, List.cons_append, List.nil_append,
          List.append_assoc]
        rw [readsAnswered_send_write, parityLoop_readsAnswered, readsAnswered_send_write]
        rfl
  · simp only [read_block]
    split
    · rfl
    · simp only [read_block_from_disk]
      rw [readsAnswered_read_recv]
      rfl

/-- C9: a worker run on any well-formed command stream writes a checkpoint
if and only if the stream reaches an EXIT command; on EXIT it terminates
with success status 0 and the checkpoint holds exactly its full
`disk_size`-byte in-memory array under the name determined by the slot
index, while a stream without EXIT ends with failure status 1 and no
checkpoint (READ, WRITE and the failure exit never persist anything). -/
theorem C9_exit_checkpoint (g : Geometry) (id : Nat) (cmds : List WorkerCmd)
    (hwf : ∀ c ∈ cmds, wfCmd g c = true) :
    ((start_disk g id cmds).checkpoint.isSome ↔ WorkerCmd.exit ∈ cmds) ∧
    (WorkerCmd.exit ∈ cmds →
      (start_disk g id cmds).status = 0 ∧
      (start_disk g id cmds).checkpoint =
        some (checkpointName id, (start_disk g id cmds).finalData) ∧
      (start_disk g id cmds).finalData.length = g.disk_size) ∧
    (WorkerCmd.exit ∉ cmds →
      (start_disk g id cmds).status = 1 ∧
      (start_disk g id cmds).checkpoint = none) :=
  runWorker_checkpoint g id cmds (List.replicate g.disk_size 0) 0 []
    (List.length_replicate _ _) hwf

/-- Witness for C9 at `D = 3`, `B = 4`, `S = 16`, slot 0, on the stream
[WRITE 0 "AAAA", EXIT]. -/
theorem C9_exit_checkpoint_witness :
    ((start_disk g3 0 [WorkerCmd.write 0 strA, WorkerCmd.exit]).checkpoint.isSome ↔
      WorkerCmd.exit ∈ [WorkerCmd.write 0 strA, WorkerCmd.exit]) ∧
    (WorkerCmd.exit ∈ [WorkerCmd.write 0 strA, WorkerCmd.exit] →
      (start_disk g3 0 [WorkerCmd.write 0 strA, WorkerCmd.exit]).status = 0 ∧
      (start_disk g3 0 [WorkerCmd.write 0 strA, WorkerCmd.exit]).checkpoint =
        some (checkpointName 0,
          (start_disk g3 0 [WorkerCmd.write 0 strA, WorkerCmd.exit]).finalData) ∧
      (start_disk g3 0 [WorkerCmd.write 0 strA, WorkerCmd.exit]).finalData.length =
        g3.disk_size) ∧
    (WorkerCmd.exit ∉ [WorkerCmd.write 0 strA, WorkerCmd.exit] →
      (start_disk g3 0 [WorkerCmd.write 0 strA, WorkerCmd.exit]).status = 1 ∧
      (start_disk g3 0 [WorkerCmd.write 0 strA, WorkerCmd.exit]).checkpoint = none) :=
  C9_exit_checkpoint g3 0 [WorkerCmd.write 0 strA, WorkerCmd.exit] (by decide)

/-- C10: for every valid global block number, the computed target disk
`block_num % num_disks` is strictly less than `num_disks`, so the branch of
`write_block` setting `parity_flag = 1` is unreachable (`writeParityFlag` is
`false`), and every such `write_block` call runs the parity-recompute phase:
the last channel event of its trace is a WRITE command to the parity disk
`num_disks`. -/
theorem C10_parity_branch_unreachable (g : Geometry) (st : RaidState) (i : Int)
    (data : List Nat) (hD : 0 < g.num_disks) (hi0 : 0 ≤ i)
    (hi1 : i < ((g.disk_size / g.block_size : Nat) : Int)) :
    i.toNat % g.num_disks < g.num_disks ∧
    writeParityFlag g i.toNat = false ∧
    ∃ l p, ((write_block g st i data).2.2).getLast? =
      some (WireEvent.send g.num_disks (DiskCmd.write l p)) := by
  have hlt : i.toNat % g.num_disks < g.num_disks := Nat.mod_lt _ hD
  refine ⟨hlt, ?_, ?_⟩
  · unfold writeParityFlag
    simp only [beq_eq_false_iff_ne, ne_eq]
    omega
  · rw [write_block_valid g st i data hD hi0 hi1]
    simp only [updateParity, write_block_to_disk, if_true, ite_true]
    exact ⟨_, _, getLast_append_singleton _ _ _⟩

/-- Witness for C10 at `D = 3`, `B = 4`, `S = 16`, global block 2. -/
theorem C10_parity_branch_unreachable_witness :
    (2 : Int).toNat % g3.num_disks < g3.num_disks ∧
    writeParityFlag g3 (2 : Int).toNat = false ∧
    ∃ l p, ((write_block g3 (initState g3) 2 strC).2.2).getLast? =
      some (WireEvent.send g3.num_disks (DiskCmd.write l p)) :=
  C10_parity_branch_unreachable g3 (initState g3) 2 strC (by decide) (by decide) (by decide)
